import Mathlib

/-!
Verification of the concurrent ordered-batch executor pattern of the
learning-ethical-ai repository: the FizzBuzz classifier variants
(`fizz_buzz_for_number`, if/elif form in `1_code/parallel-if.py` and
match/case form in `1_code/parallel-match.py` / `async.py`) and the
batch executors `parallel_fizz_buzz` / `async_fizz_buzz`.

Concurrency is embedded by making the arrival (completion) order of the
per-item results an explicit parameter: a run of the executor is any list
`arrival` that is a permutation of the submitted inclusive range.  The
collected `results` list is the classifier outputs in arrival order, and
the final `sorted(results, key=lambda x: int(x) if x.isdigit() else
float('inf'))` is a stable ascending sort on that key.
-/

/-- `fizz_buzz_for_number` from `src/chatGPT/FizzBuzz/1_code/parallel-if.py`
(if/elif chain).  Python integers are unbounded, so the argument is `Int`;
Python `%` with a positive modulus agrees with `Int.emod`. -/
def fizz_buzz_for_number_if (number : Int) : String :=
  let is_divisible_by_3 := number % 3 == 0
  let is_divisible_by_5 := number % 5 == 0
  if is_divisible_by_3 && is_divisible_by_5 then "FizzBuzz"
  else if is_divisible_by_3 then "Fizz"
  else if is_divisible_by_5 then "Buzz"
  else toString number

/-- `fizz_buzz_for_number` from
`src/models/chatGPT/FizzBuzz/1_code/parallel-match.py` (also the classifier
of `src/chatGPT/FizzBuzz/async.py`): match/case over the two divisibility
booleans. -/
def fizz_buzz_for_number_match (number : Int) : String :=
  let is_divisible_by_3 := number % 3 == 0
  let is_divisible_by_5 := number % 5 == 0
  match is_divisible_by_3, is_divisible_by_5 with
  | true, true => "FizzBuzz"
  | true, false => "Fizz"
  | false, true => "Buzz"
  | false, false => toString number

/-- Python `range(range_start, range_end + 1)`: the integers from
`range_start` to `range_end`, both bounds included, ascending; empty when
`range_end < range_start`. -/
def pyRangeIncl (range_start range_end : Int) : List Int :=
  (List.range (range_end + 1 - range_start).toNat).map (fun (i : Nat) => range_start + (i : Int))

/-- Python `str.isdigit()` on the ASCII strings produced here: non-empty and
every character a decimal digit.  In particular `"-4".isdigit()` is false. -/
def pyIsdigit (s : String) : Bool :=
  !s.data.isEmpty && s.data.all Char.isDigit

/-- Python `int(s)` on a digit string: base-10 value of the digits. -/
def pyInt (s : String) : Nat :=
  s.data.foldl (fun a c => a * 10 + (c.toNat - 48)) 0

/-- The sort key `int(x) if x.isdigit() else float('inf')` of the executors;
`none` models `float('inf')`, greater than every numeric key. -/
def sortKey (x : String) : Option Nat :=
  if pyIsdigit x then some (pyInt x) else none

/-- Key comparison induced by `sortKey`: numeric keys compare by value, the
infinite key compares after every numeric key and ties with itself. -/
def keyLe (a b : String) : Bool :=
  match sortKey a, sortKey b with
  | some m, some n => m ≤ n
  | some _, none => true
  | none, some _ => false
  | none, none => true

/-- One step of the stable insertion used to model Python `sorted`: insert
`x` in front of the first element it is strictly below, keeping `x` after
every earlier element it ties with. -/
def insertByKey (x : String) : List String → List String
  | [] => [x]
  | y :: ys => if keyLe x y then x :: y :: ys else y :: insertByKey x ys

/-- Python `sorted(results, key=lambda x: int(x) if x.isdigit() else
float('inf'))`: a stable ascending sort by `sortKey`, modelled as stable
insertion sort (Python's sort is stable, so tied elements keep the order
they have in `results`, i.e. arrival order). -/
def pySorted (results : List String) : List String :=
  results.foldr insertByKey []

/-- `parallel_fizz_buzz` of `parallel-if.py`: each number of the inclusive
range is submitted to the pool, `as_completed` yields the futures in the
arbitrary arrival order, `results` collects the outputs in that order, and
the function returns `sorted(results, key=...)`.  The arrival order is the
explicit parameter `arrival`; a run on range `[a, b]` is any `arrival` with
`arrival.Perm (pyRangeIncl a b)`. -/
def parallel_fizz_buzz (arrival : List Int) : List String :=
  pySorted (arrival.map fizz_buzz_for_number_if)

/-- `async_fizz_buzz` of `src/chatGPT/FizzBuzz/async.py`: `asyncio.wait`
returns the completed tasks as an unordered set, `results` reads them in
that arbitrary order, and the same `sorted(results, key=...)` is returned.
Its classifier is the match/case form.  CPython's `asyncio.wait` raises
`ValueError('Set of coroutines/Futures is empty.')` when the awaitable
collection is empty, so an empty batch makes the call raise instead of
returning a value; the `Except` error carries that message. -/
def async_fizz_buzz (arrival : List Int) : Except String (List String) :=
  if arrival.isEmpty then Except.error "Set of coroutines/Futures is empty."
  else Except.ok (pySorted (arrival.map fizz_buzz_for_number_match))

/-- The collection loop `for future in as_completed(...):
results.append(future.result())` of `parallel-if.py`, for a transform that
may raise: `future.result()` re-raises the item's exception, which aborts
the loop and propagates out of `parallel_fizz_buzz`.  The loop appends the
outputs in arrival order and stops at the first arrived failure. -/
def collect_results (transform : Int → Except String String) :
    List Int → Except String (List String)
  | [] => Except.ok []
  | n :: rest =>
    match transform n with
    | Except.error e => Except.error e
    | Except.ok r =>
      match collect_results transform rest with
      | Except.error e => Except.error e
      | Except.ok rs => Except.ok (r :: rs)

/-- `parallel_fizz_buzz` run with a caller-supplied transform that may
raise (the executor body of `parallel-if.py` lines 16-27 with
`fizz_buzz_for_number` replaced by `transform`): collect the results in
arrival order, re-raising any item's exception, then value-sort. -/
def parallel_fizz_buzz_exc (transform : Int → Except String String)
    (arrival : List Int) : Except String (List String) :=
  match collect_results transform arrival with
  | Except.error e => Except.error e
  | Except.ok results => Except.ok (pySorted results)

/-- A transform that raises for exactly the input 2 and otherwise computes
the if/elif classifier. -/
def transform_raising_at_2 (n : Int) : Except String String :=
  if n == 2 then Except.error "boom" else Except.ok (fizz_buzz_for_number_if n)

/-- State of the `ThreadPoolExecutor(max_workers=num_workers)` dispatch of
`parallel_fizz_buzz`: numbers not yet submitted to a worker, numbers whose
transform invocation is in flight, and numbers whose future has completed. -/
structure PoolState where
  pending : List Int
  inFlight : List Int
  done : List Int
deriving DecidableEq

/-- Transitions of the bounded pool: a worker may start the next pending
number only while fewer than `num_workers` invocations are in flight, and
any in-flight invocation may finish. -/
inductive PoolStep (num_workers : Nat) : PoolState → PoolState → Prop
  | start (x : Int) (rest busy d : List Int) (h : busy.length < num_workers) :
      PoolStep num_workers ⟨x :: rest, busy, d⟩ ⟨rest, x :: busy, d⟩
  | finish (x : Int) (p busy d : List Int) (h : x ∈ busy) :
      PoolStep num_workers ⟨p, busy, d⟩ ⟨p, busy.erase x, x :: d⟩

/-- Initial pool state of a `parallel_fizz_buzz(range_start, range_end)`
call: the whole inclusive range pending, no invocation started. -/
def poolStart (range_start range_end : Int) : PoolState :=
  ⟨pyRangeIncl range_start range_end, [], []⟩

/-- The states a bounded pool can reach from the initial state. -/
def PoolReachable (num_workers : Nat) (s t : PoolState) : Prop :=
  Relation.ReflTransGen (PoolStep num_workers) s t

/-- Dispatch of `async_fizz_buzz`: `tasks` holds one coroutine per number of
the inclusive range and `asyncio.wait(tasks)` runs them all concurrently, so
after dispatch every item of the batch is in flight at once; the function
takes no concurrency parameter that could bound this. -/
def asyncDispatch (range_start range_end : Int) : PoolState :=
  ⟨[], pyRangeIncl range_start range_end, []⟩

theorem insertByKey_perm (x : String) (l : List String) :
    (insertByKey x l).Perm (x :: l) := by
  induction l with
  | nil => exact List.Perm.refl _
  | cons y ys ih =>
    simp only [insertByKey]
    split
    · exact List.Perm.refl _
    · exact (ih.cons y).trans (List.Perm.swap x y ys)

theorem pySorted_perm (l : List String) : (pySorted l).Perm l := by
  induction l with
  | nil => exact List.Perm.refl _
  | cons x xs ih =>
    simp only [pySorted, List.foldr] at *
    exact (insertByKey_perm x _).trans (ih.cons x)

theorem pyRangeIncl_empty_of_lt (a b : Int) (h : b < a) : pyRangeIncl a b = [] := by
  have h0 : (b + 1 - a).toNat = 0 := by omega
  simp [pyRangeIncl, h0]

theorem pyRangeIncl_length (a b : Int) (h : a ≤ b) :
    (pyRangeIncl a b).length = (b - a + 1).toNat := by
  unfold pyRangeIncl
  rw [List.length_map, List.length_range]
  omega

/-- C9: the if/elif classifier of `parallel-if.py` and the match/case
classifier of `parallel-match.py` are extensionally equal: they return the
same string for every integer input. -/
theorem C9_classifier_if_eq_match (n : Int) :
    fizz_buzz_for_number_if n = fizz_buzz_for_number_match n := by
  unfold fizz_buzz_for_number_if fizz_buzz_for_number_match
  cases h3 : (n % 3 == 0) <;> cases h5 : (n % 5 == 0) <;> simp [h3, h5]

/-- C3 counterexample: on the empty range `[1, 0]` the async executor does
NOT return an empty sequence — `asyncio.wait` raises ValueError on an empty
awaitable set, so `async_fizz_buzz(1, 0)` raises instead of returning. -/
theorem C3_async_empty_raises :
    pyRangeIncl 1 0 = [] ∧
    async_fizz_buzz (pyRangeIncl 1 0) =
      Except.error "Set of coroutines/Futures is empty." :=
  ⟨rfl, rfl⟩

/-- C3 amended: on an empty batch (inclusive range with
`range_end < range_start`, so the only possible arrival list is empty) the
threaded executor returns the empty sequence and no error, but the async
executor raises ValueError, because `asyncio.wait` rejects an empty set of
awaitables; only `parallel_fizz_buzz` meets the empty-batch contract. -/
theorem C3_empty_batch_threaded_only (a b : Int) (arrival : List Int)
    (hba : b < a) (hp : arrival.Perm (pyRangeIncl a b)) :
    parallel_fizz_buzz arrival = [] ∧
    async_fizz_buzz arrival =
      Except.error "Set of coroutines/Futures is empty." := by
  rw [pyRangeIncl_empty_of_lt a b hba] at hp
  rw [hp.eq_nil]
  exact ⟨rfl, rfl⟩

/-- Witness for C3 amended at the concrete empty range `[1, 0]`. -/
theorem C3_empty_batch_threaded_only_witness :
    parallel_fizz_buzz [] = [] ∧
    async_fizz_buzz [] = Except.error "Set of coroutines/Futures is empty." :=
  C3_empty_batch_threaded_only 1 0 [] (by decide) (by decide)

/-- C5: for `range_start ≤ range_end`, every run of `parallel_fizz_buzz`
(any arrival permutation of the inclusive range) returns exactly
`range_end - range_start + 1` results, and the output is a permutation of
the multiset of classifier values of the range: no input skipped, none
duplicated. -/
theorem C5_output_permutation_of_range (a b : Int) (arrival : List Int)
    (hab : a ≤ b) (hp : arrival.Perm (pyRangeIncl a b)) :
    (parallel_fizz_buzz arrival).length = (b - a + 1).toNat ∧
    (parallel_fizz_buzz arrival).Perm
      ((pyRangeIncl a b).map fizz_buzz_for_number_if) := by
  have h2 : (parallel_fizz_buzz arrival).Perm
      ((pyRangeIncl a b).map fizz_buzz_for_number_if) :=
    (pySorted_perm (arrival.map fizz_buzz_for_number_if)).trans
      (hp.map fizz_buzz_for_number_if)
  refine ⟨?_, h2⟩
  rw [h2.length_eq, List.length_map, pyRangeIncl_length a b hab]

/-- Witness for C5 on the range `[1, 3]` with arrival order `[2, 3, 1]`. -/
theorem C5_output_permutation_of_range_witness :
    (parallel_fizz_buzz [2, 3, 1]).length = ((3 : Int) - 1 + 1).toNat ∧
    (parallel_fizz_buzz [2, 3, 1]).Perm
      ((pyRangeIncl 1 3).map fizz_buzz_for_number_if) :=
  C5_output_permutation_of_range 1 3 [2, 3, 1] (by decide) (by decide)

/-- C1: evaluating `parallel_fizz_buzz` on the range `[1, 5]` (arrival in
submission order): the sort key is the output value, not the position, so
the result at position 2 is `"4"` although `fizz_buzz_for_number(1 + 2)` is
`"Fizz"` — the sequence is not ordered by position, contradicting the
code's own comment `Sort results based on original number order`. -/
theorem C1_value_sorted_not_positional :
    parallel_fizz_buzz (pyRangeIncl 1 5) = ["1", "2", "4", "Fizz", "Buzz"] ∧
    (parallel_fizz_buzz (pyRangeIncl 1 5))[2]? = some "4" ∧
    ((pyRangeIncl 1 5).map fizz_buzz_for_number_if)[2]? = some "Fizz" ∧
    fizz_buzz_for_number_if (1 + 2) = "Fizz" := by decide

/-- C2 counterexample: with arrival (completion) order reversed, the batch
`1..15` does not produce the non-numeric outputs in submission order — the
stable sort preserves arrival order among the infinite-key ties, so the
claimed sequence (numerics ascending, then Fizz/Buzz/... in submission
order) is not what the code returns under that completion order. -/
theorem C2_submission_order_ties_fail :
    ((pyRangeIncl 1 15).reverse).Perm (pyRangeIncl 1 15) ∧
    parallel_fizz_buzz ((pyRangeIncl 1 15).reverse) =
      ["1", "2", "4", "7", "8", "11", "13", "14",
       "FizzBuzz", "Fizz", "Buzz", "Fizz", "Fizz", "Buzz", "Fizz"] ∧
    parallel_fizz_buzz ((pyRangeIncl 1 15).reverse) ≠
      ["1", "2", "4", "7", "8", "11", "13", "14",
       "Fizz", "Buzz", "Fizz", "Fizz", "Buzz", "Fizz", "FizzBuzz"] := by decide

/-- C2 amended: the comparator orders numeric-string outputs by integer
value and places every non-numeric output after every numeric one, but ties
among non-numeric outputs keep their relative ARRIVAL order (the sort is
stable over the collected results, which are in completion order), which
equals submission order only when completions arrive in submission order;
with submission-order arrival, inputs `1..15` do produce the numerics
ascending followed by Fizz/Buzz/Fizz/Fizz/Buzz/Fizz/FizzBuzz. -/
theorem C2_value_order_arrival_stable :
    (∀ s t, pyIsdigit s = true → pyIsdigit t = true →
      keyLe s t = decide (pyInt s ≤ pyInt t)) ∧
    (∀ s t, pyIsdigit s = true → pyIsdigit t = false →
      keyLe s t = true ∧ keyLe t s = false) ∧
    parallel_fizz_buzz (pyRangeIncl 1 15) =
      ["1", "2", "4", "7", "8", "11", "13", "14",
       "Fizz", "Buzz", "Fizz", "Fizz", "Buzz", "Fizz", "FizzBuzz"] := by
  refine ⟨?_, ?_, by decide⟩
  · intro s t hs ht
    simp [keyLe, sortKey, hs, ht]
  · intro s t hs ht
    simp [keyLe, sortKey, hs, ht]

/-- Witness for C2 amended at numeric strings "7", "11" and at "Fizz". -/
theorem C2_value_order_arrival_stable_witness :
    keyLe "7" "11" = decide (pyInt "7" ≤ pyInt "11") ∧ keyLe "7" "Fizz" = true :=
  ⟨C2_value_order_arrival_stable.1 "7" "11" (by decide) (by decide),
   (C2_value_order_arrival_stable.2.1 "7" "Fizz" (by decide) (by decide)).1⟩

/-- C6 counterexample: two runs of the same batch `[1, 5]` that differ only
in completion order return different sequences — the non-numeric outputs
follow arrival order, so the output is NOT invariant to completion order. -/
theorem C6_not_invariant_to_completion_order :
    ([1, 2, 5, 4, 3] : List Int).Perm (pyRangeIncl 1 5) ∧
    parallel_fizz_buzz (pyRangeIncl 1 5) = ["1", "2", "4", "Fizz", "Buzz"] ∧
    parallel_fizz_buzz [1, 2, 5, 4, 3] = ["1", "2", "4", "Buzz", "Fizz"] ∧
    parallel_fizz_buzz (pyRangeIncl 1 5) ≠ parallel_fizz_buzz [1, 2, 5, 4, 3] := by
  decide

/-- C6 amended: over a fixed range and the deterministic classifier, any two
completion orders yield outputs that are permutations of each other (the
same multiset of results); the exact sequence is not invariant, since the
tail of non-numeric outputs follows completion order. -/
theorem C6_outputs_agree_up_to_perm (a b : Int) (arr1 arr2 : List Int)
    (h1 : arr1.Perm (pyRangeIncl a b)) (h2 : arr2.Perm (pyRangeIncl a b)) :
    (parallel_fizz_buzz arr1).Perm (parallel_fizz_buzz arr2) := by
  have p1 := (pySorted_perm (arr1.map fizz_buzz_for_number_if)).trans
    (h1.map fizz_buzz_for_number_if)
  have p2 := (pySorted_perm (arr2.map fizz_buzz_for_number_if)).trans
    (h2.map fizz_buzz_for_number_if)
  exact p1.trans p2.symm

/-- Witness for C6 amended on range `[1, 3]` with two arrival orders. -/
theorem C6_outputs_agree_up_to_perm_witness :
    (parallel_fizz_buzz [1, 2, 3]).Perm (parallel_fizz_buzz [3, 2, 1]) :=
  C6_outputs_agree_up_to_perm 1 3 [1, 2, 3] [3, 2, 1] (by decide) (by decide)

/-- C7 counterexample: on the toy instance `1..100` actually run by the
scripts, the value-sorted output is NOT the positional (submission-order)
output — value order moves every Fizz/Buzz/FizzBuzz after all the numeric
strings, while positional order interleaves them. -/
theorem C7_restorers_differ_on_toy :
    parallel_fizz_buzz (pyRangeIncl 1 100) ≠
      (pyRangeIncl 1 100).map fizz_buzz_for_number_if := by decide

/-- C7 amended: the value-order and position-order restorers are not
equivalent on the toy example `1..100`: they already differ at position 2
("4" under value order, "Fizz" under positional order); they agree exactly
on the subsequence of numeric-string outputs. -/
theorem C7_value_vs_positional_on_toy :
    (parallel_fizz_buzz (pyRangeIncl 1 100))[2]? = some "4" ∧
    ((pyRangeIncl 1 100).map fizz_buzz_for_number_if)[2]? = some "Fizz" ∧
    (parallel_fizz_buzz (pyRangeIncl 1 100)).filter pyIsdigit =
      ((pyRangeIncl 1 100).map fizz_buzz_for_number_if).filter pyIsdigit := by decide

/-- C4 counterexample: a transform raising for exactly input 2 of the batch
`[1, 3]` makes `parallel_fizz_buzz` re-raise at `future.result()`: the call
propagates the exception instead of returning a full-length (3-entry)
sequence with an error only at that position. -/
theorem C4_single_failure_aborts :
    parallel_fizz_buzz_exc transform_raising_at_2 (pyRangeIncl 1 3) =
      Except.error "boom" ∧
    (pyRangeIncl 1 3).length = 3 := ⟨rfl, rfl⟩

/-- C4 amended: if the transform raises for any input of the batch, the
executor propagates an exception and returns no result sequence at all
(`future.result()` re-raises the first arrived failure), rather than a
full-length sequence carrying a per-position error. -/
theorem C4_error_propagates (transform : Int → Except String String)
    (arrival : List Int) (x : Int) (e : String) (hx : x ∈ arrival)
    (he : transform x = Except.error e) :
    ∃ msg, parallel_fizz_buzz_exc transform arrival = Except.error msg := by
  suffices h : ∃ msg, collect_results transform arrival = Except.error msg by
    obtain ⟨msg, hm⟩ := h
    exact ⟨msg, by simp [parallel_fizz_buzz_exc, hm]⟩
  induction arrival with
  | nil => cases hx
  | cons y ys ih =>
    rcases List.mem_cons.mp hx with rfl | hmem
    · exact ⟨e, by simp [collect_results, he]⟩
    · cases hy : transform y with
      | error m => exact ⟨m, by simp [collect_results, hy]⟩
      | ok r =>
        obtain ⟨msg, hm⟩ := ih hmem
        exact ⟨msg, by simp [collect_results, hy, hm]⟩

/-- Witness for C4 amended at the concrete failing batch `[1, 3]`. -/
theorem C4_error_propagates_witness :
    ∃ msg, parallel_fizz_buzz_exc transform_raising_at_2 (pyRangeIncl 1 3) =
      Except.error msg :=
  C4_error_propagates transform_raising_at_2 (pyRangeIncl 1 3) 2 "boom"
    (by decide) rfl

/-- C8 counterexample: the async variant has no concurrency parameter —
`asyncio.wait` dispatches every coroutine of the observed `1..100` batch at
once, so 100 transform invocations are in flight, exceeding the claimed
configured limit (default 10). -/
theorem C8_async_unbounded :
    (asyncDispatch 1 100).inFlight.length = 100 ∧
    ¬ ((asyncDispatch 1 100).inFlight.length ≤ 10) := by decide

/-- C8 amended: the threaded variants do bound concurrency by the
caller-supplied `num_workers` (default 10): in every state the bounded pool
can reach from the start of a `parallel_fizz_buzz` call, at most
`num_workers` transform invocations are in flight; the async variants take
no such parameter and dispatch the whole batch at once. -/
theorem C8_thread_pool_bounded (num_workers : Nat) (a b : Int) (s : PoolState)
    (h : PoolReachable num_workers (poolStart a b) s) :
    s.inFlight.length ≤ num_workers := by
  induction h with
  | refl => simp [poolStart]
  | tail hreach hstep ih =>
    cases hstep with
    | start x rest busy d hlt => simpa using hlt
    | finish x p busy d hmem =>
      calc (busy.erase x).length ≤ busy.length :=
            (List.erase_sublist x busy).length_le
        _ ≤ num_workers := ih

/-- Witness for C8 amended: after starting one worker on batch `[1, 3]`
with `num_workers = 2`, the in-flight count is within the bound. -/
theorem C8_thread_pool_bounded_witness :
    (PoolState.mk [2, 3] [1] []).inFlight.length ≤ 2 :=
  C8_thread_pool_bounded 2 1 3 (PoolState.mk [2, 3] [1] [])
    (Relation.ReflTransGen.single (PoolStep.start 1 [2, 3] [] [] (by decide)))

/-- C10: for every negative input not divisible by 3 or 5, the classifier
returns `str(n)` (e.g. "-4"), which fails the `isdigit` test of the sort
key, so it is assigned the infinite key and compares after every
numeric-string output instead of by its integer value. -/
theorem C10_negative_inputs_sort_as_infinite (n : Int) (hneg : n < 0)
    (h3 : (n % 3 == 0) = false) (h5 : (n % 5 == 0) = false) :
    fizz_buzz_for_number_if n = toString n ∧
    pyIsdigit (toString n) = false ∧
    sortKey (fizz_buzz_for_number_if n) = none ∧
    ∀ s, pyIsdigit s = true →
      keyLe s (fizz_buzz_for_number_if n) = true ∧
      keyLe (fizz_buzz_for_number_if n) s = false := by
  have hcls : fizz_buzz_for_number_if n = toString n := by
    unfold fizz_buzz_for_number_if
    simp [h3, h5]
  have hdig : pyIsdigit (toString n) = false := by
    cases n with
    | ofNat m => exact absurd hneg (Int.not_lt.mpr (Int.ofNat_nonneg m))
    | negSucc m =>
      show pyIsdigit ("-" ++ toString (Nat.succ m)) = false
      simp [pyIsdigit, String.data_append]
  refine ⟨hcls, hdig, ?_, ?_⟩
  · rw [hcls]
    simp [sortKey, hdig]
  · intro s hs
    rw [hcls]
    constructor <;> simp [keyLe, sortKey, hs, hdig]

/-- Witness for C10 at `n = -4` against the numeric output "7". -/
theorem C10_negative_inputs_sort_as_infinite_witness :
    fizz_buzz_for_number_if (-4) = "-4" ∧
    keyLe "7" (fizz_buzz_for_number_if (-4)) = true ∧
    keyLe (fizz_buzz_for_number_if (-4)) "7" = false :=
  ⟨(C10_negative_inputs_sort_as_infinite (-4) (by decide) (by decide) (by decide)).1,
   (C10_negative_inputs_sort_as_infinite (-4) (by decide) (by decide)
      (by decide)).2.2.2 "7" (by decide)⟩
